import Mathlib

/-!
Shallow embedding of the household-services marketplace core
(app/models.py, app/routes/customer.py, app/routes/admin.py).

Entities are translated from the SQLAlchemy models in app/models.py;
lifecycle operations are translated from the route handlers in
app/routes/customer.py and app/routes/admin.py.  The database session is
modelled as an explicit `DB` value; a handler that commits returns
`Except.ok` with the new state, and a handler that aborts, flashes an
error and redirects without committing (or whose commit fails and is
rolled back) returns `Except.error` with the prior state observable
unchanged.  Timestamps are modelled as `Nat` ticks (`DB.now` is the
current clock read by `datetime.utcnow`).  SQLAlchemy `Float` price
columns are modelled as `Int`: no arithmetic is performed on prices in
the embedded handlers.  Auto-increment primary keys are modelled by the
`nextRequestId` / `nextReviewId` counters.

Flask-Login scaffolding (`customer_required` / `admin_required`
decorators) supplies the authenticated principal; the spec treats
authentication as an external collaborator, so each operation receives
the already-resolved requester identity as an argument.
-/

namespace App

/-- ServiceStatus enum from app/models.py. -/
inductive ServiceStatus where
  | requested
  | accepted
  | rejected
  | closed
  | paid
deriving DecidableEq, Repr

/-- Users model (app/models.py).  Credential hash, api key and location
fields are authentication / search scaffolding, external to the core per
the spec, and carry no lifecycle logic; the fields used by the embedded
handlers are kept. -/
structure Users where
  id : Nat
  username : String
  email : String
  role : String
  is_active : Bool
deriving DecidableEq, Repr

/-- Customers model (app/models.py). -/
structure Customers where
  id : Nat
  user_id : Nat
  admin_blocked : Bool
deriving DecidableEq, Repr

/-- Services model (app/models.py). -/
structure Services where
  id : Nat
  service_type : String
  description : Option String
  base_price : Int
deriving DecidableEq, Repr

/-- ServiceProfessionals model (app/models.py). -/
structure ServiceProfessionals where
  id : Nat
  user_id : Nat
  service_id : Nat
  description : Option String
  experience : Int
  document : Option String
  is_verified : Bool
  verification_failed : Bool
  admin_blocked : Bool
deriving DecidableEq, Repr

/-- ServiceRequests model (app/models.py). -/
structure ServiceRequests where
  id : Nat
  service_id : Nat
  customer_id : Nat
  professional_id : Option Nat
  proposed_price : Option Int
  date_of_request : Nat
  date_of_completion : Option Nat
  service_status : ServiceStatus
  remarks : Option String
deriving DecidableEq, Repr

/-- Reviews model (app/models.py).  `service_request_id` carries a UNIQUE
constraint (at most one review per request); `rating` carries the check
constraint 1 ≤ rating ≤ 5. -/
structure Reviews where
  id : Nat
  customer_id : Nat
  professional_id : Nat
  service_id : Nat
  service_request_id : Nat
  rating : Nat
  remarks : Option String
deriving DecidableEq, Repr

/-- The database session state: the tables of app/models.py plus the
auto-increment counters and the current clock. -/
structure DB where
  users : List Users
  customers : List Customers
  services : List Services
  professionals : List ServiceProfessionals
  requests : List ServiceRequests
  reviews : List Reviews
  nextRequestId : Nat
  nextReviewId : Nat
  now : Nat
deriving DecidableEq, Repr

/-- Typed failures surfaced by the handlers (spec §7 taxonomy).
`notFound` is `get_or_404`; `forbidden` is `abort(403)`;
`storeFailure` is an exception at / before commit followed by rollback
(or an uncaught exception before any write). -/
inductive Err where
  | notFound
  | forbidden
  | invalidInput
  | invalidTransition
  | duplicateActiveRequest
  | alreadyReviewed
  | storeFailure
deriving DecidableEq, Repr

/-- ServiceRequests.query.get(rid): lookup of a request by primary key. -/
def getRequest (db : DB) (rid : Nat) : Option ServiceRequests :=
  db.requests.find? (fun r => r.id == rid)

/-- ServiceProfessionals.query.get(pid): lookup by primary key. -/
def getProfessional (db : DB) (pid : Nat) : Option ServiceProfessionals :=
  db.professionals.find? (fun p => p.id == pid)

/-- Membership of a status in [ServiceStatus.REQUESTED, ServiceStatus.ACCEPTED]
as tested by the duplicate-request filter in book_service. -/
def isActiveStatus (s : ServiceStatus) : Bool :=
  s == .requested || s == .accepted

/-- The duplicate-request filter of book_service (customer.py lines
204-208): customer matches, professional matches, status is active. -/
def isActivePair (c p : Nat) (r : ServiceRequests) : Bool :=
  r.customer_id == c && r.professional_id == some p
    && isActiveStatus r.service_status

/-- Number of active requests between a (customer, professional) pair. -/
def activeCount (db : DB) (c p : Nat) : Nat :=
  db.requests.countP (isActivePair c p)

/-- Modelled from the spec: the price validators of BookingForm and
UpdateRequestForm live in app/forms.py, which is not among the provided
source files.  Spec §1: inputs arrive validated, "price as a
non-negative number". -/
def priceValid (p : Int) : Bool :=
  decide (0 ≤ p)

/-- Modelled from the spec: the ReviewForm rating validator lives in
app/forms.py, which is not among the provided source files.  Spec §1 and
§7: "rating as integer 1-5", out-of-range rating is InvalidInput. -/
def ratingValid (r : Nat) : Bool :=
  decide (1 ≤ r ∧ r ≤ 5)

/-- book_service (customer.py lines 185-234).  `formOk` abstracts
`form.validate_on_submit()` (BookingForm is in app/forms.py, outside
src); `parsedDate` abstracts the `datetime.strptime` result on the raw
date string, `none` meaning the ValueError / TypeError branch. -/
def book_service (db : DB) (customerId professional_id : Nat)
    (formOk : Bool) (serviceId : Nat) (proposedPrice : Option Int)
    (parsedDate : Option Nat) : Except Err DB :=
  match getProfessional db professional_id with
  | none => .error .notFound
  | some prof =>
    if formOk then
      match parsedDate with
      | none => .error .invalidInput
      | some d =>
        match db.requests.find? (isActivePair customerId prof.id) with
        | some _ => .error .duplicateActiveRequest
        | none => .ok { db with
            requests := db.requests ++ [{
              id := db.nextRequestId
              service_id := serviceId
              customer_id := customerId
              professional_id := some prof.id
              proposed_price := proposedPrice
              date_of_request := d
              date_of_completion := none
              service_status := .requested
              remarks := none }]
            nextRequestId := db.nextRequestId + 1 }
    else .error .invalidInput

/-- update_service_request (customer.py lines 237-261): ownership guard,
then the REQUESTED-only guard, then the price update. -/
def update_service_request (db : DB) (requesterCustomerId request_id : Nat)
    (newPrice : Int) : Except Err DB :=
  match getRequest db request_id with
  | none => .error .notFound
  | some sr =>
    if sr.customer_id ≠ requesterCustomerId then .error .forbidden
    else if sr.service_status ≠ .requested then .error .invalidTransition
    else if priceValid newPrice then
      .ok { db with
        requests := db.requests.map (fun r =>
          if r.id == request_id then { r with proposed_price := some newPrice }
          else r) }
    else .error .invalidInput

/-- review_service (customer.py lines 284-323): ownership guard, form
validation, then one transaction inserting the Review row, setting the
status to CLOSED and stamping date_of_completion.  A second review of
the same request violates the UNIQUE constraint on
Reviews.service_request_id at commit time; the transaction is rolled
back whole, surfaced here as `alreadyReviewed` with no state change.  A
request whose professional_id is NULL violates the NOT NULL constraint
on Reviews.professional_id, likewise rolled back (`storeFailure`). -/
def review_service (db : DB) (requesterCustomerId request_id : Nat)
    (rating : Nat) (remarks : Option String) : Except Err DB :=
  match getRequest db request_id with
  | none => .error .notFound
  | some sr =>
    if sr.customer_id ≠ requesterCustomerId then .error .forbidden
    else if ratingValid rating then
      match sr.professional_id with
      | none => .error .storeFailure
      | some pid =>
        if db.reviews.any (fun rv => rv.service_request_id == sr.id) then
          .error .alreadyReviewed
        else .ok { db with
          reviews := db.reviews ++ [{
            id := db.nextReviewId
            customer_id := requesterCustomerId
            professional_id := pid
            service_id := sr.service_id
            service_request_id := sr.id
            rating := rating
            remarks := remarks }]
          requests := db.requests.map (fun r =>
            if r.id == request_id then
              { r with service_status := .closed
                       date_of_completion := some db.now }
            else r)
          nextReviewId := db.nextReviewId + 1 }
    else .error .invalidInput

/-- process_payment (customer.py lines 343-363): ownership guard, the
CLOSED-only guard, then status PAID and completion date re-stamped. -/
def process_payment (db : DB) (requesterCustomerId request_id : Nat) :
    Except Err DB :=
  match getRequest db request_id with
  | none => .error .notFound
  | some sr =>
    if sr.customer_id ≠ requesterCustomerId then .error .forbidden
    else if sr.service_status ≠ .closed then .error .invalidTransition
    else .ok { db with
      requests := db.requests.map (fun r =>
        if r.id == request_id then
          { r with service_status := .paid
                   date_of_completion := some db.now }
        else r) }

/-- reassign_professional (admin.py lines 351-375): the falsy check on
the submitted professional id (`if not new_prof_id`, so both a missing
field and the integer 0 are refused), the REJECTED-only guard, then
professional_id and status updated in one commit. -/
def reassign_professional (db : DB) (request_id : Nat)
    (newProfId : Option Nat) : Except Err DB :=
  match getRequest db request_id with
  | none => .error .notFound
  | some sr =>
    match newProfId with
    | none => .error .invalidInput
    | some npid =>
      if npid == 0 then .error .invalidInput
      else if sr.service_status ≠ .rejected then .error .invalidTransition
      else .ok { db with
        requests := db.requests.map (fun r =>
          if r.id == request_id then
            { r with professional_id := some npid
                     service_status := .requested }
          else r) }

/-- approve_professional (admin.py lines 153-166): sets is_verified and
clears verification_failed. -/
def approve_professional (db : DB) (professional_id : Nat) :
    Except Err DB :=
  match getProfessional db professional_id with
  | none => .error .notFound
  | some _ => .ok { db with
      professionals := db.professionals.map (fun p =>
        if p.id == professional_id then
          { p with is_verified := true, verification_failed := false }
        else p) }

/-- reject_professional (admin.py lines 169-182): clears is_verified and
sets verification_failed. -/
def reject_professional (db : DB) (professional_id : Nat) :
    Except Err DB :=
  match getProfessional db professional_id with
  | none => .error .notFound
  | some _ => .ok { db with
      professionals := db.professionals.map (fun p =>
        if p.id == professional_id then
          { p with is_verified := false, verification_failed := true }
        else p) }

/-- What the caller is told by the block / unblock handlers:
`statusChanged b` is the flash "User ... has been blocked/unblocked",
`profileNotFound` is the flash "User profile not found." -/
inductive BlockMsg where
  | statusChanged (blocked : Bool)
  | profileNotFound
deriving DecidableEq, Repr

/-- toggle_user_block (admin.py lines 186-216): resolves the role-specific
profile; if none is found the handler flashes "User profile not found."
and commits nothing.  `action` is the raw query argument: anything other
than the string "block" unblocks. -/
def toggle_user_block (db : DB) (user_id : Nat) (action : String) :
    Except Err (DB × BlockMsg) :=
  match db.users.find? (fun u => u.id == user_id) with
  | none => .error .notFound
  | some u =>
    let isBlocking := action == "block"
    if u.role == "customer" then
      match db.customers.find? (fun c => c.user_id == u.id) with
      | some c => .ok ({ db with
          customers := db.customers.map (fun x =>
            if x.id == c.id then { x with admin_blocked := isBlocking }
            else x) }, .statusChanged isBlocking)
      | none => .ok (db, .profileNotFound)
    else if u.role == "professional" then
      match db.professionals.find? (fun p => p.user_id == u.id) with
      | some p => .ok ({ db with
          professionals := db.professionals.map (fun x =>
            if x.id == p.id then { x with admin_blocked := isBlocking }
            else x) }, .statusChanged isBlocking)
      | none => .ok (db, .profileNotFound)
    else .ok (db, .profileNotFound)

/-- The helper named _toggle_block_status in the source (admin.py lines
227-241), backing the block_user and unblock_user routes.  For a role
with no matching branch (an admin account) it commits nothing yet still
flashes the success message "User ... has been blocked/unblocked".  A
customer- or professional-role user whose profile row is missing makes
`user.customer.admin_blocked = block` raise AttributeError, an uncaught
exception outside the SQLAlchemyError handler, before any write
(`storeFailure` here). -/
def toggle_block_status (db : DB) (user_id : Nat) (block : Bool) :
    Except Err (DB × BlockMsg) :=
  match db.users.find? (fun u => u.id == user_id) with
  | none => .error .notFound
  | some u =>
    if u.role == "customer" then
      match db.customers.find? (fun c => c.user_id == u.id) with
      | some c => .ok ({ db with
          customers := db.customers.map (fun x =>
            if x.id == c.id then { x with admin_blocked := block }
            else x) }, .statusChanged block)
      | none => .error .storeFailure
    else if u.role == "professional" then
      match db.professionals.find? (fun p => p.user_id == u.id) with
      | some p => .ok ({ db with
          professionals := db.professionals.map (fun x =>
            if x.id == p.id then { x with admin_blocked := block }
            else x) }, .statusChanged block)
      | none => .error .storeFailure
    else .ok (db, .statusChanged block)

/-- The jobs_count aggregate of customer_dashboard (customer.py lines
144-148): requests of the professional whose status is exactly CLOSED. -/
def jobs_count (db : DB) (professional_id : Nat) : Nat :=
  db.requests.countP (fun r =>
    r.professional_id == some professional_id
      && r.service_status == ServiceStatus.closed)

/-- The base filter of the customer_dashboard professional listing
(customer.py lines 107-112): is_verified true and admin_blocked false.
The joins to Users and Services and the optional search filters only
narrow this set further. -/
def listedProfessionals (db : DB) : List ServiceProfessionals :=
  db.professionals.filter (fun p => p.is_verified && !p.admin_blocked)

/-! Concrete example states used to instantiate the theorems. -/

/-- A verified, unblocked professional offering service 1. -/
def prof1 : ServiceProfessionals :=
  { id := 1, user_id := 3, service_id := 1, description := none
    experience := 2, document := none, is_verified := true
    verification_failed := false, admin_blocked := false }

/-- An unverified professional offering service 1. -/
def prof2 : ServiceProfessionals :=
  { id := 2, user_id := 4, service_id := 1, description := none
    experience := 0, document := none, is_verified := false
    verification_failed := false, admin_blocked := false }

/-- A base state: one admin, one customer, two professionals, one
service, no requests, no reviews. -/
def baseDb : DB :=
  { users := [
      { id := 1, username := "admin", email := "a@x.io", role := "admin", is_active := true },
      { id := 2, username := "cust", email := "c@x.io", role := "customer", is_active := true },
      { id := 3, username := "pro", email := "p@x.io", role := "professional", is_active := true },
      { id := 4, username := "pro2", email := "q@x.io", role := "professional", is_active := true }]
    customers := [{ id := 1, user_id := 2, admin_blocked := false }]
    services := [{ id := 1, service_type := "Plumbing", description := none, base_price := 100 }]
    professionals := [prof1, prof2]
    requests := []
    reviews := []
    nextRequestId := 5
    nextReviewId := 5
    now := 77 }

/-- A request from customer 1 to professional 1 in a given status. -/
def reqWith (s : ServiceStatus) : ServiceRequests :=
  { id := 1, service_id := 1, customer_id := 1, professional_id := some 1
    proposed_price := some 100, date_of_request := 10
    date_of_completion := none, service_status := s, remarks := none }

/-- Base state with the single request in status REQUESTED. -/
def dbRequested : DB := { baseDb with requests := [reqWith .requested] }

/-- Base state with the single request in status CLOSED. -/
def dbClosed : DB := { baseDb with requests := [reqWith .closed] }

/-- Base state with the single request in status REJECTED. -/
def dbRejected : DB := { baseDb with requests := [reqWith .rejected] }

/-- State for the C1 counterexample: customer 1 has an active (REQUESTED)
request with professional 2 and a REJECTED request with professional 1. -/
def exC1db : DB :=
  { baseDb with requests := [
      { id := 1, service_id := 1, customer_id := 1, professional_id := some 2
        proposed_price := some 100, date_of_request := 10
        date_of_completion := none, service_status := .requested, remarks := none },
      { id := 2, service_id := 1, customer_id := 1, professional_id := some 1
        proposed_price := some 90, date_of_request := 11
        date_of_completion := none, service_status := .rejected, remarks := none }] }

/-- The state exC1db after reassigning request 2 to professional 2: two
active requests for the pair (customer 1, professional 2). -/
def exC1dbAfter : DB :=
  { baseDb with requests := [
      { id := 1, service_id := 1, customer_id := 1, professional_id := some 2
        proposed_price := some 100, date_of_request := 10
        date_of_completion := none, service_status := .requested, remarks := none },
      { id := 2, service_id := 1, customer_id := 1, professional_id := some 2
        proposed_price := some 90, date_of_request := 11
        date_of_completion := none, service_status := .requested, remarks := none }] }

end App

/-! Generic list lemmas about updating a list in place by key. -/

namespace App

/-- Lookup by key commutes with a key-preserving in-place update. -/
theorem find?_update_by_key {α : Type} (key : α → Nat) (l : List α) (k : Nat)
    (g : α → α) (hg : ∀ x, key (g x) = key x) :
    (l.map (fun x => if key x == k then g x else x)).find? (fun x => key x == k)
      = (l.find? (fun x => key x == k)).map
          (fun x => if key x == k then g x else x) := by
  rw [List.find?_map]
  have hp : ((fun x => key x == k) ∘ (fun x => if key x == k then g x else x))
      = (fun x => key x == k) := by
    funext x
    by_cases h : key x = k
    · simp [Function.comp, h, hg]
    · simp [Function.comp, h]
  rw [hp]

/-- An idempotent key-preserving in-place update is idempotent on lists. -/
theorem map_update_idem {α : Type} (key : α → Nat) (k : Nat) (g : α → α)
    (hg : ∀ x, key (g x) = key x) (hgg : ∀ x, g (g x) = g x) (l : List α) :
    ((l.map (fun x => if key x == k then g x else x)).map
        (fun x => if key x == k then g x else x))
      = l.map (fun x => if key x == k then g x else x) := by
  rw [List.map_map]
  apply List.map_congr_left
  intro a _
  by_cases h : key a = k
  · simp [Function.comp, h, hg, hgg]
  · simp [Function.comp, h]

/-- Mapping a function that fixes every element is the identity. -/
theorem map_eq_self {α : Type} (f : α → α) (l : List α)
    (h : ∀ x ∈ l, f x = x) : l.map f = l := by
  induction l with
  | nil => rfl
  | cons a t ih =>
    rw [List.map_cons, h a (by simp), ih (fun x hx => h x (by simp [hx]))]

/-- Counting after a map can only drop when the map never creates new
satisfying elements. -/
theorem countP_map_le {α : Type} (p : α → Bool) (f : α → α) (l : List α)
    (h : ∀ x, p (f x) = true → p x = true) :
    (l.map f).countP p ≤ l.countP p := by
  induction l with
  | nil => simp
  | cons a t ih =>
    rw [List.map_cons, List.countP_cons, List.countP_cons]
    by_cases hfa : p (f a) = true
    · rw [if_pos hfa, if_pos (h a hfa)]
      omega
    · rw [if_neg hfa]
      by_cases hpa : p a = true
      · rw [if_pos hpa]
        omega
      · rw [if_neg hpa]
        omega

/-- Counting is invariant under a map that preserves the predicate. -/
theorem countP_map_eq {α : Type} (p : α → Bool) (f : α → α) (l : List α)
    (h : ∀ x, p (f x) = p x) :
    (l.map f).countP p = l.countP p := by
  induction l with
  | nil => rfl
  | cons a t ih => simp only [List.map_cons, List.countP_cons, ih, h]

/-- Updating the unique element that satisfies q, when that element
satisfies p before the update and not after, drops the p-count by one. -/
theorem countP_update_single {α : Type} (q p : α → Bool) (g : α → α) (l : List α)
    (hq1 : l.countP q = 1)
    (hpq : ∀ x ∈ l, q x = true → p x = true ∧ p (g x) = false) :
    (l.map (fun x => if q x then g x else x)).countP p + 1 = l.countP p := by
  induction l with
  | nil => simp at hq1
  | cons a t ih =>
    rw [List.countP_cons] at hq1
    by_cases hqa : q a = true
    · have ht0 : t.countP q = 0 := by
        rw [if_pos hqa] at hq1
        omega
      have htid : t.map (fun x => if q x then g x else x) = t := by
        apply map_eq_self
        intro x hx
        have hqx : ¬q x = true := (List.countP_eq_zero.mp ht0) x hx
        simp [hqx]
      obtain ⟨hpa, hpga⟩ := hpq a (by simp) hqa
      rw [List.map_cons, htid, List.countP_cons, List.countP_cons, if_pos hqa,
        if_pos hpa, if_neg (show ¬p (g a) = true by simp [hpga])]
    · have hq1t : t.countP q = 1 := by
        rw [if_neg hqa] at hq1
        omega
      have iht := ih hq1t (fun x hx hq => hpq x (by simp [hx]) hq)
      rw [List.map_cons, List.countP_cons, List.countP_cons, if_neg hqa]
      by_cases hpa : p a = true
      · rw [if_pos hpa]
        omega
      · rw [if_neg hpa]
        omega

end App

/-! Helper facts shared by claims about by-key updates of a table. -/

namespace App

/-- A found professional satisfies the lookup predicate. -/
theorem getProfessional_id {db : DB} {pid : Nat} {prof : ServiceProfessionals}
    (hp : getProfessional db pid = some prof) : prof.id = pid := by
  have hp2 : db.professionals.find? (fun p => p.id == pid) = some prof := hp
  have h3 := List.find?_some hp2
  simpa using h3

/-- A found request satisfies the lookup predicate. -/
theorem getRequest_id {db : DB} {rid : Nat} {sr : ServiceRequests}
    (hp : getRequest db rid = some sr) : sr.id = rid := by
  have hp2 : db.requests.find? (fun r => r.id == rid) = some sr := hp
  have h3 := List.find?_some hp2
  simpa using h3

/-- Generic behavior of the approve / reject professional-flag update:
the targeted professional is found updated afterwards, the update is
idempotent on the table, and every row keeping the target id is an
updated row. -/
theorem professionals_update_spec (db : DB) (pid : Nat)
    (prof : ServiceProfessionals) (hp : getProfessional db pid = some prof)
    (g : ServiceProfessionals → ServiceProfessionals)
    (hgid : ∀ x, (g x).id = x.id) (hgg : ∀ x, g (g x) = g x) :
    getProfessional
        { db with professionals :=
            db.professionals.map (fun x => if x.id == pid then g x else x) }
        pid = some (g prof)
    ∧ ((db.professionals.map (fun x => if x.id == pid then g x else x)).map
          (fun x => if x.id == pid then g x else x)
        = db.professionals.map (fun x => if x.id == pid then g x else x))
    ∧ ∀ q ∈ db.professionals.map (fun x => if x.id == pid then g x else x),
        q.id = pid → ∃ x, q = g x := by
  have hid : prof.id = pid := getProfessional_id hp
  refine ⟨?_, ?_, ?_⟩
  · have h1 := find?_update_by_key (fun x : ServiceProfessionals => x.id)
      db.professionals pid g hgid
    have h2 : getProfessional
        { db with professionals :=
            db.professionals.map (fun x => if x.id == pid then g x else x) }
        pid = (db.professionals.find? (fun p => p.id == pid)).map
          (fun x => if x.id == pid then g x else x) := h1
    rw [h2]
    have h3 : db.professionals.find? (fun p => p.id == pid) = some prof := hp
    rw [h3]
    simp [hid]
  · exact map_update_idem (fun x => x.id) pid g hgid hgg db.professionals
  · intro q hq hqid
    obtain ⟨x, _, hfx⟩ := List.mem_map.mp hq
    by_cases hx : x.id = pid
    · exact ⟨x, by rw [← hfx]; simp [hx]⟩
    · exfalso
      rw [← hfx] at hqid
      simp [hx] at hqid

end App

namespace App

/-- C8: ApproveProfessional sets is_verified and clears
verification_failed, RejectProfessional does the reverse; each is
idempotent (running it twice ends in the same state as once), and after
either, the targeted professional never has both flags true. -/
theorem approve_reject_idempotent (db : DB) (pid : Nat)
    (prof : ServiceProfessionals)
    (hp : getProfessional db pid = some prof) :
    (∃ db1, approve_professional db pid = .ok db1
      ∧ approve_professional db1 pid = .ok db1
      ∧ ∀ q ∈ db1.professionals, q.id = pid →
          q.is_verified = true ∧ q.verification_failed = false
          ∧ ¬(q.is_verified = true ∧ q.verification_failed = true))
    ∧ (∃ db2, reject_professional db pid = .ok db2
      ∧ reject_professional db2 pid = .ok db2
      ∧ ∀ q ∈ db2.professionals, q.id = pid →
          q.is_verified = false ∧ q.verification_failed = true
          ∧ ¬(q.is_verified = true ∧ q.verification_failed = true)) := by
  constructor
  · obtain ⟨hfind, hidem, hmem⟩ := professionals_update_spec db pid prof hp
      (fun x => { x with is_verified := true, verification_failed := false })
      (fun _ => rfl) (fun _ => rfl)
    refine ⟨{ db with professionals := db.professionals.map (fun x =>
        if x.id == pid then
          { x with is_verified := true, verification_failed := false }
        else x) }, ?_, ?_, ?_⟩
    · unfold approve_professional
      rw [hp]
    · unfold approve_professional
      rw [hfind]
      exact congrArg Except.ok
        (congrArg (fun l => ({ db with professionals := l } : DB)) hidem)
    · intro q hq hqid
      obtain ⟨x, hx⟩ := hmem q hq hqid
      subst hx
      exact ⟨rfl, rfl, by simp⟩
  · obtain ⟨hfind, hidem, hmem⟩ := professionals_update_spec db pid prof hp
      (fun x => { x with is_verified := false, verification_failed := true })
      (fun _ => rfl) (fun _ => rfl)
    refine ⟨{ db with professionals := db.professionals.map (fun x =>
        if x.id == pid then
          { x with is_verified := false, verification_failed := true }
        else x) }, ?_, ?_, ?_⟩
    · unfold reject_professional
      rw [hp]
    · unfold reject_professional
      rw [hfind]
      exact congrArg Except.ok
        (congrArg (fun l => ({ db with professionals := l } : DB)) hidem)
    · intro q hq hqid
      obtain ⟨x, hx⟩ := hmem q hq hqid
      subst hx
      exact ⟨rfl, rfl, by simp⟩

/-- Witness for C8 at a concrete state: professional 2 of baseDb. -/
theorem approve_reject_idempotent_witness :
    ∃ db1, approve_professional baseDb 2 = .ok db1
      ∧ approve_professional db1 2 = .ok db1
      ∧ ∀ q ∈ db1.professionals, q.id = 2 →
          q.is_verified = true ∧ q.verification_failed = false
          ∧ ¬(q.is_verified = true ∧ q.verification_failed = true) :=
  (approve_reject_idempotent baseDb 2 prof2 (by rfl)).1

end App

namespace App

/-- After an in-place id-keyed update of the requests table, looking up
the updated id finds the updated row. -/
theorem find?_req_update_found {db : DB} {rid : Nat} {sr : ServiceRequests}
    (hfind : getRequest db rid = some sr)
    (g : ServiceRequests → ServiceRequests) (hg : ∀ r, (g r).id = r.id) :
    (db.requests.map (fun r => if r.id == rid then g r else r)).find?
        (fun r => r.id == rid) = some (g sr) := by
  have h1 := find?_update_by_key (fun r : ServiceRequests => r.id)
    db.requests rid g hg
  have h2 : (db.requests.map (fun r => if r.id == rid then g r else r)).find?
      (fun r => r.id == rid)
      = (db.requests.find? (fun r => r.id == rid)).map
          (fun r => if r.id == rid then g r else r) := h1
  rw [h2]
  have h3 : db.requests.find? (fun r => r.id == rid) = some sr := hfind
  rw [h3]
  simp [getRequest_id hfind]

/-- C3: ProcessPayment succeeds iff the requester is the owning customer
and the status is CLOSED; a non-owner fails with Forbidden, an owner on a
non-CLOSED status fails with InvalidTransition with no state change;
success sets the status to PAID and re-stamps the completion date to the
current time, and a second ProcessPayment then fails with
InvalidTransition, the status staying PAID. -/
theorem process_payment_spec (db : DB) (c rid : Nat) (sr : ServiceRequests)
    (hfind : getRequest db rid = some sr) :
    ((∃ db1, process_payment db c rid = .ok db1)
        ↔ sr.customer_id = c ∧ sr.service_status = .closed)
    ∧ (sr.customer_id ≠ c → process_payment db c rid = .error .forbidden)
    ∧ (sr.customer_id = c → sr.service_status ≠ .closed →
        process_payment db c rid = .error .invalidTransition)
    ∧ (sr.customer_id = c → sr.service_status = .closed →
        ∃ db1, process_payment db c rid = .ok db1
          ∧ getRequest db1 rid = some
              { sr with service_status := .paid
                        date_of_completion := some db.now }
          ∧ process_payment db1 c rid = .error .invalidTransition) := by
  by_cases hown : sr.customer_id = c
  · by_cases hst : sr.service_status = .closed
    · have hok : process_payment db c rid = .ok { db with
          requests := db.requests.map (fun r =>
            if r.id == rid then
              { r with service_status := .paid
                       date_of_completion := some db.now }
            else r) } := by
        unfold process_payment
        rw [hfind]
        simp [hown, hst]
      have hreq : getRequest { db with
          requests := db.requests.map (fun r =>
            if r.id == rid then
              { r with service_status := .paid
                       date_of_completion := some db.now }
            else r) } rid = some
          { sr with service_status := .paid
                    date_of_completion := some db.now } :=
        find?_req_update_found hfind _ (fun _ => rfl)
      have hsecond : process_payment { db with
          requests := db.requests.map (fun r =>
            if r.id == rid then
              { r with service_status := .paid
                       date_of_completion := some db.now }
            else r) } c rid = .error .invalidTransition := by
        unfold process_payment
        rw [hreq]
        simp [hown]
      refine ⟨⟨fun _ => ⟨hown, hst⟩, fun _ => ⟨_, hok⟩⟩,
        fun h => absurd hown h, fun _ h => absurd hst h, fun _ _ => ⟨_, hok, hreq, hsecond⟩⟩
    · have herr : process_payment db c rid = .error .invalidTransition := by
        unfold process_payment
        rw [hfind]
        simp [hown, hst]
      refine ⟨⟨fun ⟨db1, h1⟩ => by rw [herr] at h1; exact absurd h1 (by simp),
        fun ⟨_, h2⟩ => absurd h2 hst⟩,
        fun h => absurd hown h, fun _ _ => herr, fun _ h => absurd h hst⟩
  · have herr : process_payment db c rid = .error .forbidden := by
      unfold process_payment
      rw [hfind]
      simp [hown]
    refine ⟨⟨fun ⟨db1, h1⟩ => by rw [herr] at h1; exact absurd h1 (by simp),
      fun ⟨h1, _⟩ => absurd h1 hown⟩,
      fun _ => herr, fun h => absurd h hown, fun h => absurd h hown⟩

/-- Witness for C3 at a concrete state: paying the CLOSED request 1 of
dbClosed succeeds, stamps PAID, and a second payment is refused. -/
theorem process_payment_spec_witness :
    ∃ db1, process_payment dbClosed 1 1 = .ok db1
      ∧ getRequest db1 1 = some
          { reqWith .closed with service_status := .paid
                                 date_of_completion := some dbClosed.now }
      ∧ process_payment db1 1 1 = .error .invalidTransition :=
  (process_payment_spec dbClosed 1 1 (reqWith .closed) (by rfl)).2.2.2 rfl rfl

/-- C4: ReassignProfessional is legal only when the status is REJECTED
(otherwise InvalidTransition, nothing changes); success sets the
professional to the submitted id and the status to REQUESTED in one
commit, and touches no other table. -/
theorem reassign_professional_spec (db : DB) (rid npid : Nat)
    (sr : ServiceRequests) (hfind : getRequest db rid = some sr)
    (hnz : npid ≠ 0) :
    (sr.service_status ≠ .rejected →
      reassign_professional db rid (some npid) = .error .invalidTransition)
    ∧ (sr.service_status = .rejected →
      ∃ db1, reassign_professional db rid (some npid) = .ok db1
        ∧ getRequest db1 rid = some
            { sr with professional_id := some npid
                      service_status := .requested }
        ∧ db1.reviews = db.reviews ∧ db1.professionals = db.professionals
        ∧ db1.customers = db.customers) := by
  by_cases hst : sr.service_status = .rejected
  · have hok : reassign_professional db rid (some npid) = .ok { db with
        requests := db.requests.map (fun r =>
          if r.id == rid then
            { r with professional_id := some npid
                     service_status := .requested }
          else r) } := by
      unfold reassign_professional
      rw [hfind]
      simp [hnz, hst]
    have hreq : getRequest { db with
        requests := db.requests.map (fun r =>
          if r.id == rid then
            { r with professional_id := some npid
                     service_status := .requested }
          else r) } rid = some
        { sr with professional_id := some npid
                  service_status := .requested } :=
      find?_req_update_found hfind _ (fun _ => rfl)
    exact ⟨fun h => absurd hst h, fun _ => ⟨_, hok, hreq, rfl, rfl, rfl⟩⟩
  · have herr : reassign_professional db rid (some npid)
        = .error .invalidTransition := by
      unfold reassign_professional
      rw [hfind]
      simp [hnz, hst]
    exact ⟨fun _ => herr, fun h => absurd h hst⟩

/-- Witness for C4 at a concrete state: request 1 of dbRejected is
reassigned to professional 2. -/
theorem reassign_professional_spec_witness :
    ∃ db1, reassign_professional dbRejected 1 (some 2) = .ok db1
      ∧ getRequest db1 1 = some
          { reqWith .rejected with professional_id := some 2
                                   service_status := .requested }
      ∧ db1.reviews = dbRejected.reviews
      ∧ db1.professionals = dbRejected.professionals
      ∧ db1.customers = dbRejected.customers :=
  (reassign_professional_spec dbRejected 1 2 (reqWith .rejected) (by rfl)
    (by decide)).2 rfl

/-- C6: UpdateProposedPrice fails with Forbidden for a non-owner, fails
with InvalidTransition when the status is not REQUESTED (no mutation in
either case), and on success changes only the proposed price of the
targeted request: its status, professional, customer, service and dates
are unchanged, other requests are untouched and every other table is
untouched. -/
theorem update_service_request_spec (db : DB) (c rid : Nat) (newPrice : Int)
    (sr : ServiceRequests) (hfind : getRequest db rid = some sr) :
    (sr.customer_id ≠ c →
      update_service_request db c rid newPrice = .error .forbidden)
    ∧ (sr.customer_id = c → sr.service_status ≠ .requested →
      update_service_request db c rid newPrice = .error .invalidTransition)
    ∧ (sr.customer_id = c → sr.service_status = .requested →
        priceValid newPrice = true →
      ∃ db1, update_service_request db c rid newPrice = .ok db1
        ∧ getRequest db1 rid = some { sr with proposed_price := some newPrice }
        ∧ db1.reviews = db.reviews
        ∧ db1.customers = db.customers
        ∧ db1.professionals = db.professionals
        ∧ db1.services = db.services
        ∧ ∀ r ∈ db.requests, r.id ≠ rid → r ∈ db1.requests) := by
  refine ⟨?_, ?_, ?_⟩
  · intro hown
    unfold update_service_request
    rw [hfind]
    simp [hown]
  · intro hown hst
    unfold update_service_request
    rw [hfind]
    simp [hown, hst]
  · intro hown hst hprice
    have hok : update_service_request db c rid newPrice = .ok { db with
        requests := db.requests.map (fun r =>
          if r.id == rid then { r with proposed_price := some newPrice }
          else r) } := by
      unfold update_service_request
      rw [hfind]
      simp [hown, hst, hprice]
    have hreq : getRequest { db with
        requests := db.requests.map (fun r =>
          if r.id == rid then { r with proposed_price := some newPrice }
          else r) } rid = some { sr with proposed_price := some newPrice } :=
      find?_req_update_found hfind _ (fun _ => rfl)
    refine ⟨_, hok, hreq, rfl, rfl, rfl, rfl, ?_⟩
    intro r hr hne
    have hmem := List.mem_map_of_mem
      (fun x : ServiceRequests =>
        if x.id == rid then { x with proposed_price := some newPrice } else x) hr
    simpa [hne] using hmem

/-- Witness for C6 at a concrete state: the owner re-prices the
REQUESTED request 1 of dbRequested to 55. -/
theorem update_service_request_spec_witness :
    ∃ db1, update_service_request dbRequested 1 1 55 = .ok db1
      ∧ getRequest db1 1 = some
          { reqWith .requested with proposed_price := some 55 }
      ∧ db1.reviews = dbRequested.reviews
      ∧ db1.customers = dbRequested.customers
      ∧ db1.professionals = dbRequested.professionals
      ∧ db1.services = dbRequested.services
      ∧ ∀ r ∈ dbRequested.requests, r.id ≠ 1 → r ∈ db1.requests :=
  (update_service_request_spec dbRequested 1 1 55 (reqWith .requested)
    (by rfl)).2.2 rfl rfl (by decide)

end App

namespace App

/-- Core success behavior of review_service: with an owned request whose
professional is set, a valid rating and no existing review, the single
commit creates the review row, closes the request and stamps the
completion date. -/
theorem review_service_ok (db : DB) (c rid rating : Nat) (rem : Option String)
    (sr : ServiceRequests) (pid : Nat)
    (hfind : getRequest db rid = some sr)
    (hown : sr.customer_id = c)
    (hprof : sr.professional_id = some pid)
    (hnorev : ∀ rv ∈ db.reviews, rv.service_request_id ≠ rid)
    (hrat : ratingValid rating = true) :
    review_service db c rid rating rem = .ok { db with
      reviews := db.reviews ++ [{
        id := db.nextReviewId
        customer_id := c
        professional_id := pid
        service_id := sr.service_id
        service_request_id := sr.id
        rating := rating
        remarks := rem }]
      requests := db.requests.map (fun r =>
        if r.id == rid then
          { r with service_status := .closed
                   date_of_completion := some db.now }
        else r)
      nextReviewId := db.nextReviewId + 1 } := by
  unfold review_service
  rw [hfind]
  have hany : db.reviews.any (fun rv => rv.service_request_id == sr.id)
      = false := by
    rw [List.any_eq_false]
    intro rv hrv
    have hne := hnorev rv hrv
    simp [getRequest_id hfind, hne]
  simp [hown, hrat, hprof, hany]

end App

namespace App

/-- C2: FileReview by the owning customer is atomic: the one commit
creates the review row AND sets the status to CLOSED AND stamps the
completion date to the current time; a second FileReview on the same
request trips the one-review-per-request uniqueness, fails
(AlreadyReviewed), and leaves the status, completion date and review set
unchanged (the failed transaction is rolled back whole, so the prior
state stays observable). -/
theorem review_service_atomic (db : DB) (c rid rating rating2 : Nat)
    (rem rem2 : Option String) (sr : ServiceRequests) (pid : Nat)
    (hfind : getRequest db rid = some sr)
    (hown : sr.customer_id = c)
    (hprof : sr.professional_id = some pid)
    (hnorev : ∀ rv ∈ db.reviews, rv.service_request_id ≠ rid)
    (hrat : ratingValid rating = true)
    (hrat2 : ratingValid rating2 = true) :
    ∃ db1, review_service db c rid rating rem = .ok db1
      ∧ db1.reviews = db.reviews ++ [{
          id := db.nextReviewId
          customer_id := c
          professional_id := pid
          service_id := sr.service_id
          service_request_id := rid
          rating := rating
          remarks := rem }]
      ∧ getRequest db1 rid = some
          { sr with service_status := .closed
                    date_of_completion := some db.now }
      ∧ review_service db1 c rid rating2 rem2 = .error .alreadyReviewed := by
  have hid := getRequest_id hfind
  subst hid
  refine ⟨{ db with
      reviews := db.reviews ++ [{
        id := db.nextReviewId
        customer_id := c
        professional_id := pid
        service_id := sr.service_id
        service_request_id := sr.id
        rating := rating
        remarks := rem }]
      requests := db.requests.map (fun r =>
        if r.id == sr.id then
          { r with service_status := .closed
                   date_of_completion := some db.now }
        else r)
      nextReviewId := db.nextReviewId + 1 },
    review_service_ok db c sr.id rating rem sr pid hfind hown hprof hnorev hrat,
    rfl, ?_, ?_⟩
  · exact find?_req_update_found hfind _ (fun _ => rfl)
  · have hreq : getRequest { db with
        reviews := db.reviews ++ [{
          id := db.nextReviewId
          customer_id := c
          professional_id := pid
          service_id := sr.service_id
          service_request_id := sr.id
          rating := rating
          remarks := rem }]
        requests := db.requests.map (fun r =>
          if r.id == sr.id then
            { r with service_status := .closed
                     date_of_completion := some db.now }
          else r)
        nextReviewId := db.nextReviewId + 1 } sr.id = some
        { sr with service_status := .closed
                  date_of_completion := some db.now } :=
      find?_req_update_found hfind _ (fun _ => rfl)
    unfold review_service
    rw [hreq]
    simp [hown, hrat2, hprof]

/-- Witness for C2 at a concrete state: reviewing request 1 of
dbRequested with rating 5, then attempting a second review. -/
theorem review_service_atomic_witness :
    ∃ db1, review_service dbRequested 1 1 5 (some "great") = .ok db1
      ∧ db1.reviews = dbRequested.reviews ++ [{
          id := dbRequested.nextReviewId
          customer_id := 1
          professional_id := 1
          service_id := (reqWith .requested).service_id
          service_request_id := 1
          rating := 5
          remarks := some "great" }]
      ∧ getRequest db1 1 = some
          { reqWith .requested with service_status := .closed
                                    date_of_completion := some dbRequested.now }
      ∧ review_service db1 1 1 4 none = .error .alreadyReviewed :=
  review_service_atomic dbRequested 1 1 5 4 (some "great") none
    (reqWith .requested) 1 (by rfl) rfl rfl (by intro rv hrv; cases hrv)
    (by decide) (by decide)

/-- C5: FileReview has no status precondition beyond ownership: an owned
request still in status REQUESTED (never accepted) with no existing
review is reviewed successfully with a valid rating, creating the review
and transitioning the request to CLOSED. -/
theorem review_service_no_status_guard (db : DB) (c rid rating : Nat)
    (rem : Option String) (sr : ServiceRequests) (pid : Nat)
    (hfind : getRequest db rid = some sr)
    (hown : sr.customer_id = c)
    (hstatus : sr.service_status = .requested)
    (hprof : sr.professional_id = some pid)
    (hnorev : ∀ rv ∈ db.reviews, rv.service_request_id ≠ rid)
    (hrat : ratingValid rating = true) :
    ∃ db1, review_service db c rid rating rem = .ok db1
      ∧ (∃ rv ∈ db1.reviews, rv.service_request_id = rid ∧ rv.rating = rating)
      ∧ getRequest db1 rid = some
          { sr with service_status := .closed
                    date_of_completion := some db.now } := by
  have hid := getRequest_id hfind
  subst hid
  refine ⟨_,
    review_service_ok db c sr.id rating rem sr pid hfind hown hprof hnorev hrat,
    ?_, ?_⟩
  · refine ⟨{
      id := db.nextReviewId
      customer_id := c
      professional_id := pid
      service_id := sr.service_id
      service_request_id := sr.id
      rating := rating
      remarks := rem }, ?_, rfl, rfl⟩
    simp
  · exact find?_req_update_found hfind _ (fun _ => rfl)

/-- Witness for C5 at a concrete state: request 1 of dbRequested is in
status REQUESTED and is successfully reviewed with rating 3. -/
theorem review_service_no_status_guard_witness :
    ∃ db1, review_service dbRequested 1 1 3 none = .ok db1
      ∧ (∃ rv ∈ db1.reviews, rv.service_request_id = 1 ∧ rv.rating = 3)
      ∧ getRequest db1 1 = some
          { reqWith .requested with service_status := .closed
                                    date_of_completion := some dbRequested.now } :=
  review_service_no_status_guard dbRequested 1 1 3 none (reqWith .requested) 1
    (by rfl) rfl rfl rfl (by intro rv hrv; cases hrv) (by decide)

end App

namespace App

/-- In a list whose p-count is one, any member satisfying p is the found
element. -/
theorem unique_found_eq {α : Type} (p : α → Bool) (l : List α) (a : α)
    (hfind : l.find? p = some a) (hcount : l.countP p = 1) :
    ∀ x ∈ l, p x = true → x = a := by
  obtain ⟨hpa, as, bs, heq, has⟩ := List.find?_eq_some.mp hfind
  subst heq
  intro x hx hpx
  rcases List.mem_append.mp hx with hx | hx
  · have h2 := has x hx
    rw [hpx] at h2
    simp at h2
  · rcases List.mem_cons.mp hx with rfl | hx
    · rfl
    · exfalso
      rw [List.countP_append, List.countP_cons] at hcount
      have h0 : bs.countP p = 0 := by
        rw [if_pos hpa] at hcount
        omega
      exact (List.countP_eq_zero.mp h0 x hx) hpx

/-- C9: the completed-jobs aggregate counts exactly the requests of the
professional whose status is CLOSED, so paying for a CLOSED job (which
makes it PAID) decreases the displayed count by one. -/
theorem jobs_count_closed_only (db : DB) (c rid pid : Nat)
    (sr : ServiceRequests)
    (hfind : getRequest db rid = some sr)
    (hown : sr.customer_id = c)
    (hst : sr.service_status = .closed)
    (hprof : sr.professional_id = some pid)
    (huniq : db.requests.countP (fun r => r.id == rid) = 1) :
    ∃ db1, process_payment db c rid = .ok db1
      ∧ jobs_count db pid = jobs_count db1 pid + 1
      ∧ getRequest db1 rid = some
          { sr with service_status := .paid
                    date_of_completion := some db.now } := by
  have hok : process_payment db c rid = .ok { db with
      requests := db.requests.map (fun r =>
        if r.id == rid then
          { r with service_status := .paid
                   date_of_completion := some db.now }
        else r) } := by
    unfold process_payment
    rw [hfind]
    simp [hown, hst]
  have hreq : getRequest { db with
      requests := db.requests.map (fun r =>
        if r.id == rid then
          { r with service_status := .paid
                   date_of_completion := some db.now }
        else r) } rid = some
      { sr with service_status := .paid
                date_of_completion := some db.now } :=
    find?_req_update_found hfind _ (fun _ => rfl)
  refine ⟨_, hok, ?_, hreq⟩
  have hfind2 : db.requests.find? (fun r => r.id == rid) = some sr := hfind
  have honly := unique_found_eq (fun r => r.id == rid) db.requests sr
    hfind2 huniq
  have hdrop : (db.requests.map (fun r =>
      if r.id == rid then
        { r with service_status := .paid
                 date_of_completion := some db.now }
      else r)).countP (fun r =>
        r.professional_id == some pid
          && r.service_status == ServiceStatus.closed) + 1
      = db.requests.countP (fun r =>
        r.professional_id == some pid
          && r.service_status == ServiceStatus.closed) := by
    apply countP_update_single
    · exact huniq
    · intro x hx hqx
      have hxa : x = sr := honly x hx hqx
      subst hxa
      constructor
      · simp [hprof, hst]
      · simp
  have hj1 : jobs_count { db with
      requests := db.requests.map (fun r =>
        if r.id == rid then
          { r with service_status := .paid
                   date_of_completion := some db.now }
        else r) } pid = (db.requests.map (fun r =>
      if r.id == rid then
        { r with service_status := .paid
                 date_of_completion := some db.now }
      else r)).countP (fun r =>
        r.professional_id == some pid
          && r.service_status == ServiceStatus.closed) := rfl
  have hj2 : jobs_count db pid = db.requests.countP (fun r =>
      r.professional_id == some pid
        && r.service_status == ServiceStatus.closed) := rfl
  rw [hj1, hj2]
  omega

/-- Witness for C9 at a concrete state: professional 1 of dbClosed shows
one completed job before payment and zero after. -/
theorem jobs_count_closed_only_witness :
    ∃ db1, process_payment dbClosed 1 1 = .ok db1
      ∧ jobs_count dbClosed 1 = jobs_count db1 1 + 1
      ∧ getRequest db1 1 = some
          { reqWith .closed with service_status := .paid
                                 date_of_completion := some dbClosed.now } :=
  jobs_count_closed_only dbClosed 1 1 1 (reqWith .closed)
    (by rfl) rfl rfl rfl (by decide)

/-- C10: book_service never reads the verification or blocked flags of
the target professional: a customer with no active request toward an
existing but unverified-or-blocked professional books successfully
(valid form, valid date), while the dashboard listing excludes that
professional. -/
theorem book_service_no_verification_check (db : DB) (c pid sid : Nat)
    (price : Option Int) (d : Nat) (prof : ServiceProfessionals)
    (hprof : getProfessional db pid = some prof)
    (hflags : prof.is_verified = false ∨ prof.admin_blocked = true)
    (hnodup : db.requests.find? (isActivePair c prof.id) = none) :
    (∃ db1, book_service db c pid true sid price (some d) = .ok db1
      ∧ ∃ r ∈ db1.requests, r.customer_id = c
          ∧ r.professional_id = some prof.id
          ∧ r.service_status = .requested)
    ∧ prof ∉ listedProfessionals db := by
  constructor
  · have hok : book_service db c pid true sid price (some d) = .ok { db with
        requests := db.requests ++ [{
          id := db.nextRequestId
          service_id := sid
          customer_id := c
          professional_id := some prof.id
          proposed_price := price
          date_of_request := d
          date_of_completion := none
          service_status := .requested
          remarks := none }]
        nextRequestId := db.nextRequestId + 1 } := by
      unfold book_service
      rw [hprof]
      simp [hnodup]
    refine ⟨_, hok, ⟨{
        id := db.nextRequestId
        service_id := sid
        customer_id := c
        professional_id := some prof.id
        proposed_price := price
        date_of_request := d
        date_of_completion := none
        service_status := .requested
        remarks := none }, by simp, rfl, rfl, rfl⟩⟩
  · intro hmem
    rw [listedProfessionals, List.mem_filter] at hmem
    obtain ⟨_, hflag⟩ := hmem
    rcases hflags with h | h <;> simp [h] at hflag

/-- Witness for C10 at a concrete state: customer 1 of baseDb books the
unverified professional 2 successfully; professional 2 is not listed. -/
theorem book_service_no_verification_check_witness :
    (∃ db1, book_service baseDb 1 2 true 1 (some 100) (some 20) = .ok db1
      ∧ ∃ r ∈ db1.requests, r.customer_id = 1
          ∧ r.professional_id = some prof2.id
          ∧ r.service_status = .requested)
    ∧ prof2 ∉ listedProfessionals baseDb :=
  book_service_no_verification_check baseDb 1 2 1 (some 100) 20 prof2
    (by rfl) (Or.inl rfl) (by rfl)

/-- C7 counterexample: the admin account (id 1, no profile of either
kind) of baseDb is "blocked" through the block_user route backed by
_toggle_block_status; no flag changes (the state is returned unchanged)
but the caller is told the user has been blocked — a success message,
not the profile-not-found warning the claim asserts. -/
theorem toggle_block_status_counterexample :
    toggle_block_status baseDb 1 true = .ok (baseDb, .statusChanged true)
    ∧ BlockMsg.statusChanged true ≠ BlockMsg.profileNotFound := by
  constructor
  · rfl
  · intro h
    cases h

/-- C7 amended: on an account with neither profile, toggle_user_block is
a no-op that warns "profile not found", while block_user / unblock_user
(_toggle_block_status) on a role with no profile branch (an admin
account) are equally no-ops on every flag but report the success
message. -/
theorem block_noop_behavior (db : DB) (uid : Nat) (u : Users)
    (action : String) (b : Bool)
    (hfind : db.users.find? (fun x => x.id == uid) = some u)
    (hc : db.customers.find? (fun c => c.user_id == u.id) = none)
    (hp : db.professionals.find? (fun p => p.user_id == u.id) = none) :
    toggle_user_block db uid action = .ok (db, .profileNotFound)
    ∧ (u.role ≠ "customer" → u.role ≠ "professional" →
        toggle_block_status db uid b = .ok (db, .statusChanged b)) := by
  constructor
  · unfold toggle_user_block
    rw [hfind]
    by_cases hcu : u.role = "customer"
    · simp [hcu, hc]
    · by_cases hpr : u.role = "professional"
      · simp [hcu, hpr, hp]
      · simp [hcu, hpr]
  · intro hcu hpr
    unfold toggle_block_status
    rw [hfind]
    simp [hcu, hpr]

/-- Witness for the C7 amendment on the concrete admin account of
baseDb. -/
theorem block_noop_behavior_witness :
    toggle_user_block baseDb 1 "block" = .ok (baseDb, .profileNotFound)
    ∧ toggle_block_status baseDb 1 true = .ok (baseDb, .statusChanged true) :=
  ⟨(block_noop_behavior baseDb 1
      { id := 1, username := "admin", email := "a@x.io", role := "admin"
        is_active := true } "block" true rfl rfl rfl).1,
   (block_noop_behavior baseDb 1
      { id := 1, username := "admin", email := "a@x.io", role := "admin"
        is_active := true } "block" true rfl rfl rfl).2
     (by decide) (by decide)⟩

end App


namespace App

/-- Counting over a singleton list. -/
theorem countP_singleton {α : Type} (p : α → Bool) (a : α) :
    List.countP p [a] = if p a then 1 else 0 := by
  simp [List.countP_cons]

/-- C1 counterexample: in exC1db the pair (customer 1, professional 2)
has exactly one active request, and request 2 (REJECTED, professional 1)
of the same customer is reassigned to professional 2.  The reassignment
succeeds and leaves the pair with two active REQUESTED requests:
ReassignProfessional performs no duplicate-active check and does not
preserve the at-most-one-active invariant. -/
theorem reassign_breaks_active_invariant :
    activeCount exC1db 1 2 = 1
    ∧ reassign_professional exC1db 2 (some 2) = .ok exC1dbAfter
    ∧ activeCount exC1dbAfter 1 2 = 2 :=
  ⟨rfl, rfl, rfl⟩

/-- C1 amended: CreateRequest refuses a duplicate active pair with
DuplicateActiveRequest and performs no write, and the at-most-one-active
invariant is preserved by CreateRequest, UpdateProposedPrice (counts
unchanged), FileReview, ProcessPayment (counts never grow) and the
verification / blocking operations (requests untouched) — but not by
ReassignProfessional, which re-checks nothing about the new pair. -/
theorem active_invariant_spec :
    (∀ (db : DB) (c pid sid : Nat) (price : Option Int) (d : Nat)
        (prof : ServiceProfessionals) (ex : ServiceRequests),
      getProfessional db pid = some prof →
      db.requests.find? (isActivePair c prof.id) = some ex →
      book_service db c pid true sid price (some d)
        = .error .duplicateActiveRequest)
    ∧ (∀ (db : DB) (c pid : Nat) (formOk : Bool) (sid : Nat)
        (price : Option Int) (pd : Option Nat) (db1 : DB),
      book_service db c pid formOk sid price pd = .ok db1 →
      (∀ c0 p0, activeCount db c0 p0 ≤ 1) →
      (∀ c0 p0, activeCount db1 c0 p0 ≤ 1))
    ∧ (∀ (db : DB) (c rid : Nat) (np : Int) (db1 : DB),
      update_service_request db c rid np = .ok db1 →
      ∀ c0 p0, activeCount db1 c0 p0 = activeCount db c0 p0)
    ∧ (∀ (db : DB) (c rid rating : Nat) (rem : Option String) (db1 : DB),
      review_service db c rid rating rem = .ok db1 →
      ∀ c0 p0, activeCount db1 c0 p0 ≤ activeCount db c0 p0)
    ∧ (∀ (db : DB) (c rid : Nat) (db1 : DB),
      process_payment db c rid = .ok db1 →
      ∀ c0 p0, activeCount db1 c0 p0 ≤ activeCount db c0 p0)
    ∧ (∀ (db : DB) (pid : Nat) (db1 : DB),
      approve_professional db pid = .ok db1 → db1.requests = db.requests)
    ∧ (∀ (db : DB) (pid : Nat) (db1 : DB),
      reject_professional db pid = .ok db1 → db1.requests = db.requests)
    ∧ (∀ (db : DB) (uid : Nat) (action : String) (db1 : DB) (msg : BlockMsg),
      toggle_user_block db uid action = .ok (db1, msg)
        → db1.requests = db.requests)
    ∧ (∀ (db : DB) (uid : Nat) (b : Bool) (db1 : DB) (msg : BlockMsg),
      toggle_block_status db uid b = .ok (db1, msg)
        → db1.requests = db.requests) := by
  refine ⟨?_, ?_, ?_, ?_, ?_, ?_, ?_, ?_, ?_⟩
  · intro db c pid sid price d prof ex hprof hdup
    unfold book_service
    rw [hprof]
    simp [hdup]
  · intro db c pid formOk sid price pd db1 hok hinv c0 p0
    cases hprof : getProfessional db pid with
    | none => simp [book_service, hprof] at hok
    | some prof =>
      cases formOk with
      | false => simp [book_service, hprof] at hok
      | true =>
        cases pd with
        | none => simp [book_service, hprof] at hok
        | some d =>
          cases hdup : db.requests.find? (isActivePair c prof.id) with
          | some ex => simp [book_service, hprof, hdup] at hok
          | none =>
            simp [book_service, hprof, hdup] at hok
            subst hok
            have hgoal : (db.requests ++ [({
                id := db.nextRequestId
                service_id := sid
                customer_id := c
                professional_id := some prof.id
                proposed_price := price
                date_of_request := d
                date_of_completion := none
                service_status := .requested
                remarks := none } : ServiceRequests)]).countP
                  (isActivePair c0 p0) ≤ 1 := by
              rw [List.countP_append, countP_singleton]
              by_cases hcc : c0 = c ∧ p0 = prof.id
              · obtain ⟨rfl, rfl⟩ := hcc
                have hzero : db.requests.countP (isActivePair c0 prof.id) = 0 :=
                  List.countP_eq_zero.mpr (List.find?_eq_none.mp hdup)
                rw [hzero, if_pos (by simp [isActivePair, isActiveStatus])]
              · have hf : isActivePair c0 p0 ({
                    id := db.nextRequestId
                    service_id := sid
                    customer_id := c
                    professional_id := some prof.id
                    proposed_price := price
                    date_of_request := d
                    date_of_completion := none
                    service_status := ServiceStatus.requested
                    remarks := none } : ServiceRequests) = false := by
                  rcases not_and_or.mp hcc with h | h <;>
                    simp [isActivePair, isActiveStatus, Ne.symm h]
                rw [hf]
                have h2 := hinv c0 p0
                unfold activeCount at h2
                simp
                omega
            exact hgoal
  · intro db c rid np db1 hok c0 p0
    cases hfind : getRequest db rid with
    | none => simp [update_service_request, hfind] at hok
    | some sr =>
      by_cases hown : sr.customer_id = c
      · by_cases hst : sr.service_status = ServiceStatus.requested
        · by_cases hpv : priceValid np = true
          · simp [update_service_request, hfind, hown, hst, hpv] at hok
            subst hok
            exact countP_map_eq (isActivePair c0 p0) _ db.requests (by
              intro r
              by_cases h : r.id = rid <;> simp [h, isActivePair])
          · simp [update_service_request, hfind, hown, hst, hpv] at hok
        · simp [update_service_request, hfind, hown, hst] at hok
      · simp [update_service_request, hfind, hown] at hok
  · intro db c rid rating rem db1 hok c0 p0
    cases hfind : getRequest db rid with
    | none => simp [review_service, hfind] at hok
    | some sr =>
      by_cases hown : sr.customer_id = c
      · by_cases hrat : ratingValid rating = true
        · cases hprof : sr.professional_id with
          | none => simp [review_service, hfind, hown, hrat, hprof] at hok
          | some pid =>
            by_cases hany : db.reviews.any
                (fun rv => rv.service_request_id == sr.id) = true
            · simp [review_service, hfind, hown, hrat, hprof, hany] at hok
            · simp [review_service, hfind, hown, hrat, hprof, hany] at hok
              subst hok
              exact countP_map_le (isActivePair c0 p0) _ db.requests (by
                intro r hr
                by_cases h : r.id = rid
                · simp [h, isActivePair, isActiveStatus] at hr
                · simpa [h] using hr)
        · simp [review_service, hfind, hown, hrat] at hok
      · simp [review_service, hfind, hown] at hok
  · intro db c rid db1 hok c0 p0
    cases hfind : getRequest db rid with
    | none => simp [process_payment, hfind] at hok
    | some sr =>
      by_cases hown : sr.customer_id = c
      · by_cases hst : sr.service_status = ServiceStatus.closed
        · simp [process_payment, hfind, hown, hst] at hok
          subst hok
          exact countP_map_le (isActivePair c0 p0) _ db.requests (by
            intro r hr
            by_cases h : r.id = rid
            · simp [h, isActivePair, isActiveStatus] at hr
            · simpa [h] using hr)
        · simp [process_payment, hfind, hown, hst] at hok
      · simp [process_payment, hfind, hown] at hok
  · intro db pid db1 hok
    cases hp2 : getProfessional db pid with
    | none => simp [approve_professional, hp2] at hok
    | some prof =>
      simp [approve_professional, hp2] at hok
      subst hok
      rfl
  · intro db pid db1 hok
    cases hp2 : getProfessional db pid with
    | none => simp [reject_professional, hp2] at hok
    | some prof =>
      simp [reject_professional, hp2] at hok
      subst hok
      rfl
  · intro db uid action db1 msg hok
    cases hu : db.users.find? (fun x => x.id == uid) with
    | none => simp [toggle_user_block, hu] at hok
    | some u =>
      by_cases hcu : u.role = "customer"
      · cases hc : db.customers.find? (fun c => c.user_id == u.id) with
        | none =>
          simp [toggle_user_block, hu, hcu, hc] at hok
          obtain ⟨h1, -⟩ := hok
          subst h1
          rfl
        | some cp =>
          simp [toggle_user_block, hu, hcu, hc] at hok
          obtain ⟨h1, -⟩ := hok
          subst h1
          rfl
      · by_cases hpr : u.role = "professional"
        · cases hp2 : db.professionals.find? (fun p => p.user_id == u.id) with
          | none =>
            simp [toggle_user_block, hu, hcu, hpr, hp2] at hok
            obtain ⟨h1, -⟩ := hok
            subst h1
            rfl
          | some pp =>
            simp [toggle_user_block, hu, hcu, hpr, hp2] at hok
            obtain ⟨h1, -⟩ := hok
            subst h1
            rfl
        · simp [toggle_user_block, hu, hcu, hpr] at hok
          obtain ⟨h1, -⟩ := hok
          subst h1
          rfl
  · intro db uid b db1 msg hok
    cases hu : db.users.find? (fun x => x.id == uid) with
    | none => simp [toggle_block_status, hu] at hok
    | some u =>
      by_cases hcu : u.role = "customer"
      · cases hc : db.customers.find? (fun c => c.user_id == u.id) with
        | none => simp [toggle_block_status, hu, hcu, hc] at hok
        | some cp =>
          simp [toggle_block_status, hu, hcu, hc] at hok
          obtain ⟨h1, -⟩ := hok
          subst h1
          rfl
      · by_cases hpr : u.role = "professional"
        · cases hp2 : db.professionals.find? (fun p => p.user_id == u.id) with
          | none => simp [toggle_block_status, hu, hcu, hpr, hp2] at hok
          | some pp =>
            simp [toggle_block_status, hu, hcu, hpr, hp2] at hok
            obtain ⟨h1, -⟩ := hok
            subst h1
            rfl
        · simp [toggle_block_status, hu, hcu, hpr] at hok
          obtain ⟨h1, -⟩ := hok
          subst h1
          rfl

/-- Witness for the C1 amendment: booking professional 1 again while
request 1 of dbRequested is active fails with DuplicateActiveRequest. -/
theorem active_invariant_spec_witness :
    book_service dbRequested 1 1 true 1 (some 100) (some 20)
      = .error .duplicateActiveRequest :=
  active_invariant_spec.1 dbRequested 1 1 1 (some 100) 20 prof1
    (reqWith .requested) (by rfl) (by rfl)

end App
